import Mathlib

/-!
Verification of the `ProviderStore` connection manager of the
balancer-exchange front-end, in two variants:

* `Full` — the richer store (Gnosis Safe integration, injected-wallet
  tracking, `handleAccountsChanged`, `encodeTransaction`), from
  `src/unnamed/part_000`.
* `Simple` — the reduced store from `src/stores/Provider.ts`.

The asynchronous network queries (`getNetwork`, `listAccounts`) are the only
points where the source code can fail; each is embedded as an `Option`
argument to the operation (`none` = the awaited promise rejected, `some v` =
it resolved with `v`).  All state mutation in the source is straight-line
between those suspension points, so each operation becomes a pure function
on the store state.  Wallet-event listener subscriptions, which live on the
external provider objects, are tracked explicitly as a multiset of
(handle id, event) pairs.  Calls out to the data-refresh collaborator
(`blockchainFetchStore.blockchainFetch`) are returned as an effect list.
-/

/-- The `ERRORS` enum of the source. -/
inductive ERRORS where
  | UntrackedChainId
  | ContextNotFound
  | BlockchainActionNoAccount
  | BlockchainActionNoChainId
  | BlockchainActionNoResponse
  | NoWeb3
deriving DecidableEq, Repr

/-- The `ContractTypes` enum of the source. -/
inductive ContractTypes where
  | BPool
  | BFactory
  | TestToken
  | ExchangeProxy
  | Multicall
  | TestTokenBytes
deriving DecidableEq, Repr

/-- Modelled from the spec: `provider/connectors` is not under `src/`; it
exports a statically configured fallback-URL table keyed by the single
supported chain id.  The concrete values are irrelevant to every claim. -/
def backupUrls : Nat → String := fun _ => "backup-rpc-url"

/-- Modelled from the spec: the single statically supported chain id exported
by `provider/connectors` (not under `src/`). -/
def supportedChainId : Nat := 1

/-- An underlying RPC client (`library` / `injectedWeb3` / `backUpWeb3`
values): either an `ethers.providers.Web3Provider` wrapped around an injected
handle, or an `ethers.providers.JsonRpcProvider` against a URL. -/
inductive Lib where
  | web3Provider (handleId : Nat)
  | jsonRpc (url : String)
deriving DecidableEq, Repr

/-- An injected wallet provider handle: an opaque object identified by
`id`, with the duck-typed capabilities the source inspects (`provider.on`,
`provider.isMetaMask`). -/
structure Provider where
  id : Nat
  hasOn : Bool
  isMetaMask : Bool
deriving DecidableEq, Repr

/-- The value of `providerStatus.activeProvider` when not null: either the
injected provider object itself or the string sentinel `'backup'`. -/
inductive ActiveProvider where
  | injected (p : Provider)
  | backup
deriving DecidableEq, Repr

/-- The wallet events the store subscribes to. -/
inductive EventName where
  | chainChanged
  | accountsChanged
  | close
  | networkChanged
deriving DecidableEq, Repr

/-- The `SafeInfo` descriptor delivered by the Gnosis Safe SDK callback. -/
structure SafeInfo where
  safeAddress : String
deriving DecidableEq, Repr

/-- Externally observable calls made by the store while handling an event:
`blockchainFetchStore.blockchainFetch(force)`. -/
inductive Effect where
  | blockchainFetch (force : Bool)
deriving DecidableEq, Repr

/-- The `{data, to, value}` transaction descriptor built by
`encodeTransaction`. -/
structure Transaction where
  data : String
  toAddr : String
  value : Nat
deriving DecidableEq, Repr

/-- JavaScript truthiness of a possibly-unset string (`!account`):
`undefined`/`null` and the empty string are falsy. -/
def strTruthy : Option String → Bool
  | none => false
  | some s => s ≠ ""

/-- JavaScript truthiness of a possibly-unset number (`!chainId`):
`undefined`/`null` and `0` are falsy. -/
def natTruthy : Option Nat → Bool
  | none => false
  | some n => n ≠ 0

/-- Semantics of `EventEmitter.removeListener`: removes at most one matching
subscription. -/
def removeSub (h : Nat) (e : EventName) : List (Nat × EventName) → List (Nat × EventName)
  | [] => []
  | x :: xs => if x = (h, e) then xs else x :: removeSub h e xs

namespace Full

/-- The `ProviderStatus` record of the full variant.  Fields the constructor
leaves undefined are `none`. -/
structure ProviderStatus where
  activeChainId : Option Nat := none
  account : Option String := none
  library : Option Lib := none
  active : Bool := false
  injectedLoaded : Bool := false
  injectedActive : Bool := false
  injectedChainId : Option Nat := none
  injectedWeb3 : Option Lib := none
  backUpLoaded : Bool := false
  backUpWeb3 : Option Lib := none
  activeProvider : Option ActiveProvider := none
  error : Option ERRORS := none
deriving DecidableEq, Repr

/-- The store state: `providerStatus`, the Safe descriptor received via
`setSafeInfo` (if any), and the multiset of live wallet-event subscriptions
on external provider handles. -/
structure Store where
  providerStatus : ProviderStatus
  safeInfo : Option SafeInfo := none
  subs : List (Nat × EventName) := []
deriving DecidableEq, Repr

/-- The state after the constructor runs: the five flags it initializes
explicitly, everything else undefined, no subscriptions. -/
def initialStore : Store :=
  { providerStatus :=
      { active := false
        injectedLoaded := false
        injectedActive := false
        backUpLoaded := false
        activeProvider := none } }

/-- Source `setSafeInfo(safeInfo)`: stores the Safe descriptor. -/
def setSafeInfo (info : SafeInfo) (s : Store) : Store :=
  { s with safeInfo := some info }

/-- Source `loadWeb3()` of the full variant.  `netResult` is the outcome of
`await web3.getNetwork()` on the freshly constructed backup
`JsonRpcProvider` (`none` = the query threw).  The success path copies
`safeStatus.safeInfo && safeStatus.safeInfo.safeAddress` into `account`. -/
def loadWeb3 (netResult : Option Nat) (s : Store) : Store :=
  match netResult with
  | some chainId =>
      let web3 := Lib.jsonRpc (backupUrls supportedChainId)
      { s with providerStatus :=
          { s.providerStatus with
              injectedActive := false
              backUpLoaded := true
              account := s.safeInfo.map SafeInfo.safeAddress
              activeChainId := some chainId
              backUpWeb3 := some web3
              library := some web3
              activeProvider := some .backup
              active := true } }
  | none =>
      { s with providerStatus :=
          { s.providerStatus with
              injectedActive := false
              backUpLoaded := false
              account := none
              activeChainId := none
              backUpWeb3 := none
              library := none
              active := false
              error := some .NoWeb3
              activeProvider := none } }

/-- The four-step listener removal of `loadProvider` (events removed in
source order: `chainChanged`, `accountsChanged`, `close`, `networkChanged`). -/
def removeAllSubs (h : Nat) (subs : List (Nat × EventName)) : List (Nat × EventName) :=
  removeSub h .networkChanged
    (removeSub h .close
      (removeSub h .accountsChanged
        (removeSub h .chainChanged subs)))

/-- The four-step listener attach of `loadProvider` (events attached in
source order). -/
def attachSubs (h : Nat) (subs : List (Nat × EventName)) : List (Nat × EventName) :=
  subs ++ [(h, .chainChanged), (h, .accountsChanged), (h, .close), (h, .networkChanged)]

/-- The listener-removal step at the top of `loadProvider`: listeners are
removed only when the previously active provider is truthy and exposes
`on` (the `'backup'` string sentinel and `null` expose none). -/
def detachOldSubs (s : Store) : List (Nat × EventName) :=
  match s.providerStatus.activeProvider with
  | some (.injected p) => if p.hasOn then removeAllSubs p.id s.subs else s.subs
  | _ => s.subs

/-- The failure commit of the full variant's `loadProvider` catch clause. -/
def failCleared (ps : ProviderStatus) : ProviderStatus :=
  { ps with
      injectedLoaded := false
      injectedChainId := none
      account := none
      library := none
      active := false
      activeProvider := none }

/-- Source `loadProvider(provider)` of the full variant.  The straight-line body:
removes the four listeners from the previously active handle when that
handle is an object with an `on` capability (the `'backup'` string sentinel
has none), constructs a `Web3Provider`, attaches the four listeners to the
new handle when it has `on`, then awaits `getNetwork` (`netResult`) and
`listAccounts` (`accountsResult`); only when both resolve does it commit
`injectedLoaded`/`injectedChainId`/`account`/`injectedWeb3`/`activeProvider`.
A rejected query lands in the catch clause, which commits `failCleared`.
The old library's `close()` call has no effect on tracked state. -/
def loadProvider (netResult : Option Nat) (accountsResult : Option (List String))
    (provider : Provider) (s : Store) : Store :=
  let subs1 := detachOldSubs s
  let subs2 := if provider.hasOn then attachSubs provider.id subs1 else subs1
  match netResult with
  | none => { s with subs := subs2, providerStatus := failCleared s.providerStatus }
  | some chainId =>
    match accountsResult with
    | none => { s with subs := subs2, providerStatus := failCleared s.providerStatus }
    | some accounts =>
        { s with
            subs := subs2
            providerStatus :=
              { s.providerStatus with
                  injectedLoaded := true
                  injectedChainId := some chainId
                  account := accounts.head?
                  injectedWeb3 := some (Lib.web3Provider provider.id)
                  activeProvider := some (.injected provider) } }

/-- Source `handleNetworkChanged(networkId)`: no-op unless `active`; when active,
re-runs `loadWeb3()` and then calls `blockchainFetch(true)`. -/
def handleNetworkChanged (netResult : Option Nat) (networkId : Nat) (s : Store) :
    Store × List Effect :=
  if s.providerStatus.active then
    (loadWeb3 netResult s, [.blockchainFetch true])
  else (s, [])

/-- Source `handleClose()`: no-op unless `active`; when active, re-runs
`loadWeb3()`. -/
def handleClose (netResult : Option Nat) (s : Store) : Store × List Effect :=
  if s.providerStatus.active then (loadWeb3 netResult s, []) else (s, [])

/-- Source `handleAccountsChanged(accounts)`: empty list delegates to
`handleClose()`; otherwise adopts `accounts[0]` and calls
`blockchainFetch(true)`. -/
def handleAccountsChanged (netResult : Option Nat) (accounts : List String) (s : Store) :
    Store × List Effect :=
  match accounts with
  | [] => handleClose netResult s
  | a :: _ =>
      ({ s with providerStatus := { s.providerStatus with account := some a } },
       [.blockchainFetch true])

/-- What a contract handle is bound to: the unchecked signer for an account,
or the raw library. -/
inductive Binding where
  | uncheckedSigner (account : String)
  | lib (l : Option Lib)
deriving DecidableEq, Repr

/-- Source `getProviderOrSigner(library, account)`: a truthy account yields an
`UncheckedJsonRpcSigner` over `library.getSigner(account)`; otherwise the
library itself. -/
def getProviderOrSigner (library : Option Lib) (account : Option String) : Binding :=
  if strTruthy account then .uncheckedSigner (account.getD "") else .lib library

/-- An `ethers.Contract` handle: the address and ABI schema key it was
constructed with, plus its provider-or-signer binding. -/
structure EthersContract where
  address : String
  ctype : ContractTypes
  binding : Binding
deriving DecidableEq, Repr

/-- Source `getContract(type, address, signerAccount?)`. -/
def getContract (s : Store) (type : ContractTypes) (address : String)
    (signerAccount : Option String) : EthersContract :=
  if strTruthy signerAccount then
    { address := address, ctype := type
      binding := getProviderOrSigner s.providerStatus.library signerAccount }
  else
    { address := address, ctype := type, binding := .lib s.providerStatus.library }

/-- Source `encodeTransaction(contractType, contractAddress, action, params,
overrides?)`.  The ABI encoder
(`contract.interface.functions[action].encode(params)`) lives in the
external ethers library; it is passed in as `abiEncode`, applied to the
contract's schema key, the action name and the parameter list.  `overrides`
is defaulted to an empty object and never read.  The function reads the
store but performs no writes, so it returns only the `Except` result. -/
def encodeTransaction (abiEncode : ContractTypes → String → List String → String)
    (contractType : ContractTypes) (contractAddress : String) (action : String)
    (params : List String) (overrides : Option Unit) (s : Store) :
    Except ERRORS Transaction :=
  let chainId := s.providerStatus.activeChainId
  let account := s.providerStatus.account
  let _ := overrides.getD ()
  if ¬ strTruthy account then
    .error .BlockchainActionNoAccount
  else if ¬ natTruthy chainId then
    .error .BlockchainActionNoChainId
  else
    let contract := getContract s contractType contractAddress account
    .ok { data := abiEncode contract.ctype action params
          toAddr := contract.address
          value := 0 }

/-- A sequence of `loadProvider` calls, each with the environment outcomes
of its two queries. -/
def loadSeq : List (Provider × Nat × List String) → Store → Store
  | [], s => s
  | (p, net, accts) :: rest, s => loadSeq rest (loadProvider (some net) (some accts) p s)

end Full

namespace Simple

/-- The `ProviderStatus` record of the reduced variant
(`src/stores/Provider.ts`). -/
structure ProviderStatus where
  activeChainId : Option Nat := none
  library : Option Lib := none
  active : Bool := false
  backUpLoaded : Bool := false
  activeProvider : Option ActiveProvider := none
  error : Option ERRORS := none
deriving DecidableEq, Repr

/-- The reduced store: no Safe status, no injected-wallet tracking. -/
structure Store where
  providerStatus : ProviderStatus
  subs : List (Nat × EventName) := []
deriving DecidableEq, Repr

/-- State after the reduced constructor: `active`, `backUpLoaded` false,
`activeProvider` null, everything else undefined. -/
def initialStore : Store :=
  { providerStatus :=
      { active := false
        backUpLoaded := false
        activeProvider := none } }

/-- Source `loadWeb3()` of the reduced variant: same backup load as the full one
but without the Safe-account and injected-flag writes. -/
def loadWeb3 (netResult : Option Nat) (s : Store) : Store :=
  match netResult with
  | some chainId =>
      let web3 := Lib.jsonRpc (backupUrls supportedChainId)
      { s with providerStatus :=
          { s.providerStatus with
              backUpLoaded := true
              activeChainId := some chainId
              library := some web3
              activeProvider := some .backup
              active := true } }
  | none =>
      { s with providerStatus :=
          { s.providerStatus with
              backUpLoaded := false
              activeChainId := none
              library := none
              active := false
              error := some .NoWeb3
              activeProvider := none } }

/-- The three-step listener removal of the reduced variant's `loadProvider`
(events removed in source order: `chainChanged`, `close`,
`networkChanged`; this variant never subscribes `accountsChanged`). -/
def removeAllSubs (h : Nat) (subs : List (Nat × EventName)) : List (Nat × EventName) :=
  removeSub h .networkChanged
    (removeSub h .close
      (removeSub h .chainChanged subs))

/-- The three-step listener attach of the reduced variant's `loadProvider`
(events attached in source order). -/
def attachSubs (h : Nat) (subs : List (Nat × EventName)) : List (Nat × EventName) :=
  subs ++ [(h, .chainChanged), (h, .close), (h, .networkChanged)]

/-- The listener-removal step at the top of the reduced `loadProvider`:
listeners are removed only when the previously active provider is truthy
and exposes `on` (the `'backup'` string sentinel and `null` expose none). -/
def detachOldSubs (s : Store) : List (Nat × EventName) :=
  match s.providerStatus.activeProvider with
  | some (.injected p) => if p.hasOn then removeAllSubs p.id s.subs else s.subs
  | _ => s.subs

/-- Source `loadProvider(provider)` of the reduced variant
(`src/stores/Provider.ts`): removes the three listeners from the previous
handle, attaches them to the new handle when it has `on`, and records
`activeProvider = provider`.  This variant performs no network queries and
writes no other status field; the old library's `close()` call has no
effect on tracked state, so the body is straight-line and a call is
successful exactly when it runs to the end. -/
def loadProvider (provider : Provider) (s : Store) : Store :=
  let subs1 := detachOldSubs s
  let subs2 := if provider.hasOn then attachSubs provider.id subs1 else subs1
  { s with
      subs := subs2
      providerStatus :=
        { s.providerStatus with activeProvider := some (.injected provider) } }

/-- A sequence of successful `loadProvider` calls of the reduced variant. -/
def loadSeq : List Provider → Store → Store
  | [], s => s
  | p :: rest, s => loadSeq rest (loadProvider p s)

end Simple

/-- The safety predicate of the data-model invariant: whenever `active` is
true, `library` and `activeProvider` are non-null. -/
def Full.invActive (s : Full.Store) : Prop :=
  s.providerStatus.active = true →
    s.providerStatus.library ≠ none ∧ s.providerStatus.activeProvider ≠ none

/-- The listener-bookkeeping invariant maintained across successful
`loadProvider` calls: either no subscriptions exist, or the subscriptions
are exactly the four events, once each, on the currently active injected
handle (which has the `on` capability). -/
def Full.SubsInv (s : Full.Store) : Prop :=
  s.subs = [] ∨
    ∃ p : Provider, p.hasOn = true ∧
      s.providerStatus.activeProvider = some (.injected p) ∧
      s.subs = Full.attachSubs p.id []

/-- The listener-bookkeeping invariant of the reduced variant: either no
subscriptions exist, or the subscriptions are exactly the three events,
once each, on the currently active injected handle (which has the `on`
capability). -/
def Simple.SubsInv (s : Simple.Store) : Prop :=
  s.subs = [] ∨
    ∃ p : Provider, p.hasOn = true ∧
      s.providerStatus.activeProvider = some (.injected p) ∧
      s.subs = Simple.attachSubs p.id []

/-- C1: if the network query inside `loadWeb3()` fails, then — from every
prior state, in both variants — the resulting state has `active = false`,
`library = null`, `activeProvider = null`, `backUpLoaded = false`,
`activeChainId = null`, and `error` holding the `NoWeb3` error. -/
theorem loadWeb3_failure_clears (s : Full.Store) (t : Simple.Store) :
    ((Full.loadWeb3 none s).providerStatus.active = false ∧
     (Full.loadWeb3 none s).providerStatus.library = none ∧
     (Full.loadWeb3 none s).providerStatus.activeProvider = none ∧
     (Full.loadWeb3 none s).providerStatus.backUpLoaded = false ∧
     (Full.loadWeb3 none s).providerStatus.activeChainId = none ∧
     (Full.loadWeb3 none s).providerStatus.error = some .NoWeb3) ∧
    ((Simple.loadWeb3 none t).providerStatus.active = false ∧
     (Simple.loadWeb3 none t).providerStatus.library = none ∧
     (Simple.loadWeb3 none t).providerStatus.activeProvider = none ∧
     (Simple.loadWeb3 none t).providerStatus.backUpLoaded = false ∧
     (Simple.loadWeb3 none t).providerStatus.activeChainId = none ∧
     (Simple.loadWeb3 none t).providerStatus.error = some .NoWeb3) := by
  constructor <;>
    simp [Full.loadWeb3, Simple.loadWeb3]

/-- C2: `encodeTransaction` with an unset account fails with
`BlockchainActionNoAccount`; with a set (truthy) account but an unset
`activeChainId` it fails with `BlockchainActionNoChainId`.  Both conjuncts
hold for every ABI encoder `enc`, so neither error path performs any ABI
encoding or contract binding; the embedding is a pure function of the
store, mirroring that the source method performs no state writes. -/
theorem encodeTransaction_precondition_errors
    (enc : ContractTypes → String → List String → String)
    (ct : ContractTypes) (ca act : String) (ps : List String) (ov : Option Unit)
    (s : Full.Store) :
    (s.providerStatus.account = none →
      Full.encodeTransaction enc ct ca act ps ov s =
        .error .BlockchainActionNoAccount) ∧
    (strTruthy s.providerStatus.account = true →
      s.providerStatus.activeChainId = none →
      Full.encodeTransaction enc ct ca act ps ov s =
        .error .BlockchainActionNoChainId) := by
  constructor
  · intro h
    simp [Full.encodeTransaction, h, strTruthy]
  · intro hA hC
    simp [Full.encodeTransaction, hA, hC, natTruthy]

/-- Closed-form witness for C2 at concrete inputs. -/
theorem encodeTransaction_precondition_errors_witness :
    ((Full.initialStore).providerStatus.account = none ∧
      Full.encodeTransaction (fun _ _ _ => "enc") .BPool "0xPool" "swap" [] none
        Full.initialStore = .error .BlockchainActionNoAccount) ∧
    (strTruthy ({ providerStatus := { account := some "0xA" } } :
        Full.Store).providerStatus.account = true ∧
      ({ providerStatus := { account := some "0xA" } } :
        Full.Store).providerStatus.activeChainId = none ∧
      Full.encodeTransaction (fun _ _ _ => "enc") .BPool "0xPool" "swap" [] none
        { providerStatus := { account := some "0xA" } } =
          .error .BlockchainActionNoChainId) :=
  ⟨⟨rfl,
    (encodeTransaction_precondition_errors (fun _ _ _ => "enc") .BPool "0xPool" "swap"
      [] none Full.initialStore).1 rfl⟩,
   ⟨by decide, rfl,
    (encodeTransaction_precondition_errors (fun _ _ _ => "enc") .BPool "0xPool" "swap"
      [] none { providerStatus := { account := some "0xA" } }).2 (by decide) rfl⟩⟩

/-- C7: `handleAccountsChanged` applied to the empty account list produces
exactly the same store state and the same external effects as invoking
`handleClose` directly, from every starting state, for every outcome of
the backup network query. -/
theorem handleAccountsChanged_empty_eq_handleClose
    (netResult : Option Nat) (s : Full.Store) :
    Full.handleAccountsChanged netResult [] s = Full.handleClose netResult s := rfl

/-- C8: while `active = true`, `handleAccountsChanged` on a non-empty list
adopts the first element as the account, calls the data-refresh
collaborator with `force = true`, and leaves both chain-id fields (and
everything chain-related) unchanged. -/
theorem handleAccountsChanged_nonempty
    (netResult : Option Nat) (a : String) (rest : List String) (s : Full.Store)
    (hActive : s.providerStatus.active = true) :
    (Full.handleAccountsChanged netResult (a :: rest) s).1.providerStatus.account =
        some a ∧
    (Full.handleAccountsChanged netResult (a :: rest) s).2 =
        [.blockchainFetch true] ∧
    (Full.handleAccountsChanged netResult (a :: rest) s).1.providerStatus.activeChainId =
        s.providerStatus.activeChainId ∧
    (Full.handleAccountsChanged netResult (a :: rest) s).1.providerStatus.injectedChainId =
        s.providerStatus.injectedChainId ∧
    (Full.handleAccountsChanged netResult (a :: rest) s).1.providerStatus.active =
        s.providerStatus.active := by
  simp [Full.handleAccountsChanged]

/-- Closed-form witness for C8: after a successful backup load (so
`active = true`), an `accountsChanged` event with `['0xABC']`. -/
theorem handleAccountsChanged_nonempty_witness :
    (Full.loadWeb3 (some 1) Full.initialStore).providerStatus.active = true ∧
    ((Full.handleAccountsChanged none ["0xABC"]
        (Full.loadWeb3 (some 1) Full.initialStore)).1.providerStatus.account =
        some "0xABC" ∧
     (Full.handleAccountsChanged none ["0xABC"]
        (Full.loadWeb3 (some 1) Full.initialStore)).2 = [.blockchainFetch true] ∧
     (Full.handleAccountsChanged none ["0xABC"]
        (Full.loadWeb3 (some 1) Full.initialStore)).1.providerStatus.activeChainId =
        (Full.loadWeb3 (some 1) Full.initialStore).providerStatus.activeChainId ∧
     (Full.handleAccountsChanged none ["0xABC"]
        (Full.loadWeb3 (some 1) Full.initialStore)).1.providerStatus.injectedChainId =
        (Full.loadWeb3 (some 1) Full.initialStore).providerStatus.injectedChainId ∧
     (Full.handleAccountsChanged none ["0xABC"]
        (Full.loadWeb3 (some 1) Full.initialStore)).1.providerStatus.active =
        (Full.loadWeb3 (some 1) Full.initialStore).providerStatus.active) :=
  ⟨by decide,
   handleAccountsChanged_nonempty none "0xABC" []
     (Full.loadWeb3 (some 1) Full.initialStore) (by decide)⟩

/-- C4: the full variant's `loadProvider(handle)` commits the new state —
`injectedChainId` from the network query, `account` as the head of the
account list, `injectedLoaded = true`, `activeProvider = handle` — in a
single write block only after both queries succeed; when either query
fails, that new state is not committed: the catch clause commits the
cleared failure state instead (`injectedLoaded = false`,
`activeProvider = null`, `account`, `injectedChainId`, `library` nulled,
`active = false`). -/
theorem loadProvider_commits_only_on_success (p : Provider) (s : Full.Store) :
    (∀ net accounts,
      (Full.loadProvider (some net) (some accounts) p s).providerStatus =
        { s.providerStatus with
            injectedLoaded := true
            injectedChainId := some net
            account := accounts.head?
            injectedWeb3 := some (Lib.web3Provider p.id)
            activeProvider := some (.injected p) }) ∧
    (∀ accountsResult,
      (Full.loadProvider none accountsResult p s).providerStatus =
        Full.failCleared s.providerStatus) ∧
    (∀ net,
      (Full.loadProvider (some net) none p s).providerStatus =
        Full.failCleared s.providerStatus) := by
  refine ⟨fun net accounts => ?_, fun accountsResult => ?_, fun net => ?_⟩ <;>
    simp [Full.loadProvider]

/-- C9: no operation of the full store ever resets `error`: `loadProvider`
and the event handlers leave it unchanged or (through a failing re-run of
`loadWeb3`) set it to `NoWeb3`; a successful `loadWeb3` sets
`active = true` while leaving `error` untouched.  Consequently a failed
`loadWeb3` followed by a successful one leaves the store with
`active = true` and `error = NoWeb3` simultaneously; the same holds in the
reduced variant. -/
theorem error_field_never_reset :
    ((∀ net s, (Full.loadWeb3 (some net) s).providerStatus.error =
        s.providerStatus.error ∧
        (Full.loadWeb3 (some net) s).providerStatus.active = true) ∧
     (∀ net accountsResult p s,
        (Full.loadProvider net accountsResult p s).providerStatus.error =
          s.providerStatus.error) ∧
     (∀ net s, (Full.loadWeb3 net s).providerStatus.error =
          s.providerStatus.error ∨
        (Full.loadWeb3 net s).providerStatus.error = some .NoWeb3) ∧
     (∀ net id s, (Full.handleNetworkChanged net id s).1.providerStatus.error =
          s.providerStatus.error ∨
        (Full.handleNetworkChanged net id s).1.providerStatus.error = some .NoWeb3) ∧
     (∀ net accounts s,
        (Full.handleAccountsChanged net accounts s).1.providerStatus.error =
          s.providerStatus.error ∨
        (Full.handleAccountsChanged net accounts s).1.providerStatus.error =
          some .NoWeb3) ∧
     (∀ net s, (Full.handleClose net s).1.providerStatus.error =
          s.providerStatus.error ∨
        (Full.handleClose net s).1.providerStatus.error = some .NoWeb3) ∧
     (∀ info s, (Full.setSafeInfo info s).providerStatus.error =
        s.providerStatus.error) ∧
     (∀ net s,
        (Full.loadWeb3 (some net) (Full.loadWeb3 none s)).providerStatus.active =
          true ∧
        (Full.loadWeb3 (some net) (Full.loadWeb3 none s)).providerStatus.error =
          some .NoWeb3)) ∧
    (∀ net t, (Simple.loadWeb3 (some net) (Simple.loadWeb3 none t)).providerStatus.active =
        true ∧
      (Simple.loadWeb3 (some net) (Simple.loadWeb3 none t)).providerStatus.error =
        some .NoWeb3) := by
  refine ⟨⟨fun net s => ?_, fun net accountsResult p s => ?_, fun net s => ?_,
      fun net id s => ?_, fun net accounts s => ?_, fun net s => ?_,
      fun info s => ?_, fun net s => ?_⟩, fun net t => ?_⟩
  · simp [Full.loadWeb3]
  · cases net with
    | none => simp [Full.loadProvider, Full.failCleared]
    | some n =>
        cases accountsResult with
        | none => simp [Full.loadProvider, Full.failCleared]
        | some accounts => simp [Full.loadProvider]
  · cases net with
    | none => right; simp [Full.loadWeb3]
    | some n => left; simp [Full.loadWeb3]
  · by_cases h : s.providerStatus.active = true
    · cases net with
      | none => right; simp [Full.handleNetworkChanged, h, Full.loadWeb3]
      | some n => left; simp [Full.handleNetworkChanged, h, Full.loadWeb3]
    · left; simp [Full.handleNetworkChanged, h]
  · cases accounts with
    | nil =>
        by_cases h : s.providerStatus.active = true
        · cases net with
          | none =>
              right
              simp [Full.handleAccountsChanged, Full.handleClose, h, Full.loadWeb3]
          | some n =>
              left
              simp [Full.handleAccountsChanged, Full.handleClose, h, Full.loadWeb3]
        · left; simp [Full.handleAccountsChanged, Full.handleClose, h]
    | cons a rest => left; simp [Full.handleAccountsChanged]
  · by_cases h : s.providerStatus.active = true
    · cases net with
      | none => right; simp [Full.handleClose, h, Full.loadWeb3]
      | some n => left; simp [Full.handleClose, h, Full.loadWeb3]
    · left; simp [Full.handleClose, h]
  · simp [Full.setSafeInfo]
  · simp [Full.loadWeb3]
  · simp [Simple.loadWeb3]

/-- C10: every successful `loadWeb3` of the full variant overwrites
`account` with exactly the stored Gnosis Safe address (unset when no
safe-info callback has been received), so whatever account was previously
adopted — via `loadProvider`, `handleAccountsChanged`, or anything else —
is discarded whenever `loadWeb3` re-runs. -/
theorem loadWeb3_account_from_safeInfo :
    (∀ net (s : Full.Store),
      (Full.loadWeb3 (some net) s).providerStatus.account =
        s.safeInfo.map SafeInfo.safeAddress) ∧
    (∀ net info (s : Full.Store),
      (Full.loadWeb3 (some net) (Full.setSafeInfo info s)).providerStatus.account =
        some info.safeAddress) ∧
    (∀ net (s : Full.Store) (prior : Option String),
      (Full.loadWeb3 (some net)
          { s with providerStatus :=
              { s.providerStatus with account := prior } }).providerStatus.account =
        s.safeInfo.map SafeInfo.safeAddress) := by
  refine ⟨fun net s => ?_, fun net info s => ?_, fun net s prior => ?_⟩ <;>
    simp [Full.loadWeb3, Full.setSafeInfo]

/-- Helper: after any run of `loadWeb3`, the active-implies-nonnull
invariant holds unconditionally (success sets `library` and
`activeProvider`; failure sets `active = false`). -/
theorem Full.invActive_after_loadWeb3 (netResult : Option Nat) (s : Full.Store) :
    Full.invActive (Full.loadWeb3 netResult s) := by
  cases netResult with
  | none => intro h; simp [Full.loadWeb3] at h
  | some n => intro h; simp [Full.loadWeb3]

/-- C6: the predicate `active = true → library ≠ null ∧ activeProvider ≠
null` holds in the initial state and is preserved by every operation of
the full store — `loadProvider`, `loadWeb3`, `handleNetworkChanged`,
`handleAccountsChanged`, `handleClose` (and `setSafeInfo`) — on both the
success and the failure outcome of each embedded network query. -/
theorem invActive_preserved :
    Full.invActive Full.initialStore ∧
    (∀ netResult accountsResult p s, Full.invActive s →
      Full.invActive (Full.loadProvider netResult accountsResult p s)) ∧
    (∀ netResult s, Full.invActive s →
      Full.invActive (Full.loadWeb3 netResult s)) ∧
    (∀ netResult id s, Full.invActive s →
      Full.invActive (Full.handleNetworkChanged netResult id s).1) ∧
    (∀ netResult accounts s, Full.invActive s →
      Full.invActive (Full.handleAccountsChanged netResult accounts s).1) ∧
    (∀ netResult s, Full.invActive s →
      Full.invActive (Full.handleClose netResult s).1) ∧
    (∀ info s, Full.invActive s →
      Full.invActive (Full.setSafeInfo info s)) := by
  refine ⟨?_, fun netResult accountsResult p s hinv => ?_,
    fun netResult s _ => Full.invActive_after_loadWeb3 netResult s,
    fun netResult id s hinv => ?_, fun netResult accounts s hinv => ?_,
    fun netResult s hinv => ?_, fun info s hinv => ?_⟩
  · intro h; simp [Full.initialStore] at h
  · cases netResult with
    | none => intro h; simp [Full.loadProvider, Full.failCleared] at h
    | some n =>
      cases accountsResult with
      | none => intro h; simp [Full.loadProvider, Full.failCleared] at h
      | some accounts =>
        intro h
        simp only [Full.loadProvider] at h ⊢
        exact ⟨(hinv h).1, by simp⟩
  · unfold Full.handleNetworkChanged
    by_cases h : s.providerStatus.active = true
    · simpa [h] using Full.invActive_after_loadWeb3 netResult s
    · simpa [h] using hinv
  · cases accounts with
    | nil =>
      unfold Full.handleAccountsChanged Full.handleClose
      by_cases h : s.providerStatus.active = true
      · simpa [h] using Full.invActive_after_loadWeb3 netResult s
      · simpa [h] using hinv
    | cons a rest =>
      intro h
      simp only [Full.handleAccountsChanged] at h ⊢
      exact hinv h
  · unfold Full.handleClose
    by_cases h : s.providerStatus.active = true
    · simpa [h] using Full.invActive_after_loadWeb3 netResult s
    · simpa [h] using hinv
  · intro h
    simp only [Full.setSafeInfo] at h ⊢
    exact hinv h

/-- Closed-form witness for C6: the invariant holds in the initial state, and
preservation applied at a concrete successful `loadWeb3`. -/
theorem invActive_preserved_witness :
    Full.invActive Full.initialStore ∧
    Full.invActive (Full.loadWeb3 (some 1) Full.initialStore) :=
  ⟨fun h => Bool.noConfusion h,
   invActive_preserved.2.2.1 (some 1) Full.initialStore (fun h => Bool.noConfusion h)⟩

/-- Helper: removing the four events from an empty subscription list is a
no-op. -/
theorem Full.removeAllSubs_nil (h : Nat) : Full.removeAllSubs h [] = [] := rfl

/-- Helper: removing the four events from exactly the four events on the
same handle empties the subscription list. -/
theorem Full.removeAllSubs_attachSubs_self (h : Nat) :
    Full.removeAllSubs h (Full.attachSubs h []) = [] := by
  simp [Full.removeAllSubs, Full.attachSubs, removeSub]

/-- Helper: under the listener invariant, the detach step of `loadProvider`
leaves no subscription behind. -/
theorem Full.detachOldSubs_of_inv (s : Full.Store) (hs : Full.SubsInv s) :
    Full.detachOldSubs s = [] := by
  rcases hs with hnil | ⟨q, hq, hap, hsubs⟩
  · unfold Full.detachOldSubs
    rcases h : s.providerStatus.activeProvider with _ | ap
    · simpa using hnil
    · cases ap with
      | injected p => simp [hnil, Full.removeAllSubs_nil]
      | backup => simpa using hnil
  · unfold Full.detachOldSubs
    rw [hap, hsubs]
    simp [hq, Full.removeAllSubs_attachSubs_self]

/-- Helper: a successful `loadProvider` on a handle with the `on`
capability, started from a state satisfying the listener invariant, leaves
exactly the four events subscribed on that handle and records it as the
active provider. -/
theorem Full.loadProvider_success_subs (net : Nat) (accounts : List String)
    (p : Provider) (s : Full.Store) (hp : p.hasOn = true) (hs : Full.SubsInv s) :
    (Full.loadProvider (some net) (some accounts) p s).subs =
      Full.attachSubs p.id [] ∧
    (Full.loadProvider (some net) (some accounts) p s).providerStatus.activeProvider =
      some (.injected p) := by
  constructor
  · simp [Full.loadProvider, hp, Full.detachOldSubs_of_inv s hs]
  · simp [Full.loadProvider]

/-- Helper: the listener invariant is preserved by successful
`loadProvider` calls on handles with the `on` capability. -/
theorem Full.subsInv_loadProvider (net : Nat) (accounts : List String)
    (p : Provider) (s : Full.Store) (hp : p.hasOn = true) (hs : Full.SubsInv s) :
    Full.SubsInv (Full.loadProvider (some net) (some accounts) p s) :=
  Or.inr ⟨p, hp, (Full.loadProvider_success_subs net accounts p s hp hs).2,
    (Full.loadProvider_success_subs net accounts p s hp hs).1⟩

/-- Helper: `loadSeq` splits over list append. -/
theorem Full.loadSeq_append (l1 l2 : List (Provider × Nat × List String))
    (s : Full.Store) :
    Full.loadSeq (l1 ++ l2) s = Full.loadSeq l2 (Full.loadSeq l1 s) := by
  induction l1 generalizing s with
  | nil => rfl
  | cons x rest ih =>
      rcases x with ⟨p, net, accounts⟩
      simp [Full.loadSeq, ih]

/-- Helper: the listener invariant is preserved by any sequence of
successful `loadProvider` calls on handles with the `on` capability. -/
theorem Full.subsInv_loadSeq (steps : List (Provider × Nat × List String))
    (s : Full.Store) (hs : Full.SubsInv s)
    (hOn : ∀ x ∈ steps, x.1.hasOn = true) :
    Full.SubsInv (Full.loadSeq steps s) := by
  induction steps generalizing s with
  | nil => exact hs
  | cons x rest ih =>
      rcases x with ⟨p, net, accounts⟩
      exact ih (Full.loadProvider (some net) (some accounts) p s)
        (Full.subsInv_loadProvider net accounts p s
          (hOn (p, net, accounts) (List.mem_cons_self _ _)) hs)
        (fun y hy => hOn y (List.mem_cons_of_mem _ hy))

/-- Helper: removing the reduced variant's three events from an empty
subscription list is a no-op. -/
theorem Simple.reduced_removeAllSubs_nil (h : Nat) : Simple.removeAllSubs h [] = [] := rfl

/-- Helper: removing the three events from exactly the three events on the
same handle empties the subscription list. -/
theorem Simple.reduced_removeAllSubs_attachSubs_self (h : Nat) :
    Simple.removeAllSubs h (Simple.attachSubs h []) = [] := by
  simp [Simple.removeAllSubs, Simple.attachSubs, removeSub]

/-- Helper: under the reduced listener invariant, the detach step of the
reduced `loadProvider` leaves no subscription behind. -/
theorem Simple.reduced_detachOldSubs_of_inv (s : Simple.Store) (hs : Simple.SubsInv s) :
    Simple.detachOldSubs s = [] := by
  rcases hs with hnil | ⟨q, hq, hap, hsubs⟩
  · unfold Simple.detachOldSubs
    rcases h : s.providerStatus.activeProvider with _ | ap
    · simpa using hnil
    · cases ap with
      | injected p => simp [hnil, Simple.reduced_removeAllSubs_nil]
      | backup => simpa using hnil
  · unfold Simple.detachOldSubs
    rw [hap, hsubs]
    simp [hq, Simple.reduced_removeAllSubs_attachSubs_self]

/-- Helper: a reduced-variant `loadProvider` call on a handle with the `on`
capability, started from a state satisfying the listener invariant, leaves
exactly the three events subscribed on that handle and records it as the
active provider. -/
theorem Simple.loadProvider_subs (p : Provider) (s : Simple.Store)
    (hp : p.hasOn = true) (hs : Simple.SubsInv s) :
    (Simple.loadProvider p s).subs = Simple.attachSubs p.id [] ∧
    (Simple.loadProvider p s).providerStatus.activeProvider =
      some (.injected p) := by
  constructor
  · simp [Simple.loadProvider, hp, Simple.reduced_detachOldSubs_of_inv s hs]
  · simp [Simple.loadProvider]

/-- Helper: the reduced listener invariant is preserved by `loadProvider`
calls on handles with the `on` capability. -/
theorem Simple.reduced_subsInv_loadProvider (p : Provider) (s : Simple.Store)
    (hp : p.hasOn = true) (hs : Simple.SubsInv s) :
    Simple.SubsInv (Simple.loadProvider p s) :=
  Or.inr ⟨p, hp, (Simple.loadProvider_subs p s hp hs).2,
    (Simple.loadProvider_subs p s hp hs).1⟩

/-- Helper: the reduced `loadSeq` splits over list append. -/
theorem Simple.reduced_loadSeq_append (l1 l2 : List Provider) (s : Simple.Store) :
    Simple.loadSeq (l1 ++ l2) s = Simple.loadSeq l2 (Simple.loadSeq l1 s) := by
  induction l1 generalizing s with
  | nil => rfl
  | cons p rest ih => simp [Simple.loadSeq, ih]

/-- Helper: the reduced listener invariant is preserved by any sequence of
`loadProvider` calls on handles with the `on` capability. -/
theorem Simple.reduced_subsInv_loadSeq (steps : List Provider) (s : Simple.Store)
    (hs : Simple.SubsInv s) (hOn : ∀ r ∈ steps, r.hasOn = true) :
    Simple.SubsInv (Simple.loadSeq steps s) := by
  induction steps generalizing s with
  | nil => exact hs
  | cons p rest ih =>
      exact ih (Simple.loadProvider p s)
        (Simple.reduced_subsInv_loadProvider p s (hOn p (List.mem_cons_self _ _)) hs)
        (fun r hr => hOn r (List.mem_cons_of_mem _ hr))

/-- C5: starting from the initial state (no subscriptions), after any
finite non-empty sequence of successful `loadProvider` calls — written as
an arbitrary prefix followed by a last call, all on handles exposing `on`
— the wallet-event subscriptions are exactly the events the variant
subscribes, once each, on the last handle alone, and that handle is the
recorded active provider: the four events (`chainChanged`,
`accountsChanged`, `close`, `networkChanged`) in the full variant (prefix
`steps`, last handle `p`), and the three events (`chainChanged`, `close`,
`networkChanged`) in the reduced variant (prefix `steps2`, last handle
`q`).  Since this holds for every such sequence, it holds at every
intermediate point of a longer run as well: no duplicate and no orphaned
listeners after any number of reloads. -/
theorem listeners_on_exactly_one_handle
    (steps : List (Provider × Nat × List String)) (p : Provider) (net : Nat)
    (accounts : List String) (steps2 : List Provider) (q : Provider)
    (hOn : ∀ x ∈ steps, x.1.hasOn = true) (hp : p.hasOn = true)
    (hOn2 : ∀ r ∈ steps2, r.hasOn = true) (hq : q.hasOn = true) :
    (Full.initialStore.subs = [] ∧
     (Full.loadSeq (steps ++ [(p, net, accounts)]) Full.initialStore).subs =
       Full.attachSubs p.id [] ∧
     (Full.loadSeq (steps ++ [(p, net, accounts)])
         Full.initialStore).providerStatus.activeProvider = some (.injected p)) ∧
    (Simple.initialStore.subs = [] ∧
     (Simple.loadSeq (steps2 ++ [q]) Simple.initialStore).subs =
       Simple.attachSubs q.id [] ∧
     (Simple.loadSeq (steps2 ++ [q])
         Simple.initialStore).providerStatus.activeProvider =
       some (.injected q)) := by
  constructor
  · have hs : Full.SubsInv (Full.loadSeq steps Full.initialStore) :=
      Full.subsInv_loadSeq steps Full.initialStore (Or.inl rfl) hOn
    have hstep := Full.loadProvider_success_subs net accounts p
      (Full.loadSeq steps Full.initialStore) hp hs
    refine ⟨rfl, ?_, ?_⟩
    · rw [Full.loadSeq_append]
      simpa [Full.loadSeq] using hstep.1
    · rw [Full.loadSeq_append]
      simpa [Full.loadSeq] using hstep.2
  · have hs : Simple.SubsInv (Simple.loadSeq steps2 Simple.initialStore) :=
      Simple.reduced_subsInv_loadSeq steps2 Simple.initialStore (Or.inl rfl) hOn2
    have hstep := Simple.loadProvider_subs q
      (Simple.loadSeq steps2 Simple.initialStore) hq hs
    refine ⟨rfl, ?_, ?_⟩
    · rw [Simple.reduced_loadSeq_append]
      simpa [Simple.loadSeq] using hstep.1
    · rw [Simple.reduced_loadSeq_append]
      simpa [Simple.loadSeq] using hstep.2

/-- Closed-form witness for C5: in each variant, two reloads across two
distinct MetaMask-like handles leave the variant's listeners on the second
handle only. -/
theorem listeners_on_exactly_one_handle_witness :
    (∀ x ∈ [((⟨1, true, true⟩ : Provider), 1, ["0xA"])], x.1.hasOn = true) ∧
    (⟨2, true, false⟩ : Provider).hasOn = true ∧
    (∀ r ∈ [(⟨1, true, true⟩ : Provider)], r.hasOn = true) ∧
    (Full.loadSeq ([((⟨1, true, true⟩ : Provider), 1, ["0xA"])] ++
        [((⟨2, true, false⟩ : Provider), 1, [])]) Full.initialStore).subs =
      Full.attachSubs 2 [] ∧
    (Full.loadSeq ([((⟨1, true, true⟩ : Provider), 1, ["0xA"])] ++
        [((⟨2, true, false⟩ : Provider), 1, [])])
        Full.initialStore).providerStatus.activeProvider =
      some (.injected ⟨2, true, false⟩) ∧
    (Simple.loadSeq ([(⟨1, true, true⟩ : Provider)] ++
        [(⟨2, true, false⟩ : Provider)]) Simple.initialStore).subs =
      Simple.attachSubs 2 [] ∧
    (Simple.loadSeq ([(⟨1, true, true⟩ : Provider)] ++
        [(⟨2, true, false⟩ : Provider)])
        Simple.initialStore).providerStatus.activeProvider =
      some (.injected ⟨2, true, false⟩) :=
  ⟨by decide, rfl, by decide,
   (listeners_on_exactly_one_handle [((⟨1, true, true⟩ : Provider), 1, ["0xA"])]
      ⟨2, true, false⟩ 1 [] [⟨1, true, true⟩] ⟨2, true, false⟩
      (by decide) rfl (by decide) rfl).1.2.1,
   (listeners_on_exactly_one_handle [((⟨1, true, true⟩ : Provider), 1, ["0xA"])]
      ⟨2, true, false⟩ 1 [] [⟨1, true, true⟩] ⟨2, true, false⟩
      (by decide) rfl (by decide) rfl).1.2.2,
   (listeners_on_exactly_one_handle [((⟨1, true, true⟩ : Provider), 1, ["0xA"])]
      ⟨2, true, false⟩ 1 [] [⟨1, true, true⟩] ⟨2, true, false⟩
      (by decide) rfl (by decide) rfl).2.2.1,
   (listeners_on_exactly_one_handle [((⟨1, true, true⟩ : Provider), 1, ["0xA"])]
      ⟨2, true, false⟩ 1 [] [⟨1, true, true⟩] ⟨2, true, false⟩
      (by decide) rfl (by decide) rfl).2.2.2⟩
